import Mathlib

/-!
Verification of the pyreact-fusion database-backend abstraction.

Shallow embedding of `backend/database/connection.py`,
`backend/database/models.py` and the database-touching route handlers of
`backend/api/routes.py`. External effects are made explicit: the filesystem
is a list of existing directories, SQLAlchemy sessions are numbered by a
counter, `datetime.utcnow()` is a `now : Nat` parameter, password hashing
and token creation are function parameters, and the health probe round
trip is an oracle `ProbeKind → Except String Unit`.
-/

namespace PyReact

/-- Database-relevant fields of `backend.config.Settings`. -/
structure Settings where
  database_type : String
  debug : Bool
  sqlite_db_path : String
  postgres_host : String
  postgres_port : Nat
  postgres_db : String
  postgres_user : String
  postgres_password : String
  mysql_host : String
  mysql_port : Nat
  mysql_db : String
  mysql_user : String
  mysql_password : String
  mongodb_host : String
  mongodb_port : Nat
  mongodb_db : String
  mongodb_user : String
  mongodb_password : String
deriving Repr, DecidableEq

/-- The engine handle returned by `DatabaseFactory.create_engine`: either a
SQLAlchemy `Engine` (with the keyword arguments each branch passes to
`sqlalchemy.create_engine`) or a PyMongo database handle. -/
inductive EngineHandle where
  | sqlalchemyEngine (url : String) (check_same_thread : Option Bool)
      (pool_size : Option Nat) (max_overflow : Option Nat)
      (pool_pre_ping : Bool) (echo : Bool)
  | mongoDatabase (connection_string : String) (db_name : String)
deriving Repr, DecidableEq

/-- The two backend families the code dispatches on via `isinstance`. -/
inductive BackendFamily where
  | relational
  | document
deriving Repr, DecidableEq

/-- Family of a handle: `isinstance(h, Engine)` vs `isinstance(h, MongoDatabase)`. -/
def EngineHandle.family : EngineHandle → BackendFamily
  | .sqlalchemyEngine _ _ _ _ _ _ => .relational
  | .mongoDatabase _ _ => .document

/-- `os.path.dirname` for slash-separated paths. -/
def dirname (p : String) : String :=
  let parts := p.splitOn "/"
  if parts.length ≤ 1 then "" else String.intercalate "/" parts.dropLast

/-- `os.makedirs(d, exist_ok=True)` on a filesystem modelled as the list of
existing directories. -/
def makedirs (fs : List String) (d : String) : List String :=
  if d ∈ fs then fs else d :: fs

/-- `DatabaseFactory.create_sqlite_engine`: ensures the parent directory of
the database file exists, then opens the engine with
`connect_args={"check_same_thread": False}` and `echo=settings.debug`. -/
def create_sqlite_engine (debug : Bool) (fs : List String) (db_path : String) :
    List String × EngineHandle :=
  let dir := dirname db_path
  let fs' := makedirs fs (if dir = "" then "." else dir)
  (fs', .sqlalchemyEngine ("sqlite:///" ++ db_path) (some false) none none false debug)

/-- `DatabaseFactory.create_postgresql_engine`. -/
def create_postgresql_engine (debug : Bool) (host : String) (port : Nat)
    (database user password : String) : EngineHandle :=
  .sqlalchemyEngine
    ("postgresql://" ++ user ++ ":" ++ password ++ "@" ++ host ++ ":" ++
      toString port ++ "/" ++ database)
    none (some 5) (some 10) true debug

/-- `DatabaseFactory.create_mysql_engine`. -/
def create_mysql_engine (debug : Bool) (host : String) (port : Nat)
    (database user password : String) : EngineHandle :=
  .sqlalchemyEngine
    ("mysql+pymysql://" ++ user ++ ":" ++ password ++ "@" ++ host ++ ":" ++
      toString port ++ "/" ++ database)
    none (some 5) (some 10) true debug

/-- Python truthiness of an `Optional[str]`: `None` and `""` are falsy. -/
def pyTruthyStr : Option String → Bool
  | none => false
  | some s => s != ""

/-- `DatabaseFactory.create_mongodb_client`: credentials go into the
connection string only when `user and password` is truthy. -/
def create_mongodb_client (host : String) (port : Nat) (database : String)
    (user password : Option String) : EngineHandle :=
  let connection_string :=
    if pyTruthyStr user && pyTruthyStr password then
      "mongodb://" ++ user.getD "" ++ ":" ++ password.getD "" ++ "@" ++
        host ++ ":" ++ toString port ++ "/" ++ database
    else
      "mongodb://" ++ host ++ ":" ++ toString port ++ "/" ++ database
  .mongoDatabase connection_string database

/-- Python `str.lower()`, modelled character by character. -/
def pyLower (s : String) : String :=
  String.mk (s.data.map Char.toLower)

/-- `DatabaseFactory.create_engine`: dispatch on the lowercased configured
database type; an unrecognized type raises `ValueError` (modelled as
`Except.error`). The filesystem is threaded for the sqlite side effect. -/
def DatabaseFactory.create_engine (s : Settings) (fs : List String) :
    Except String (EngineHandle × List String) :=
  let db_type := pyLower s.database_type
  if db_type = "sqlite" then
    let r := create_sqlite_engine s.debug fs s.sqlite_db_path
    .ok (r.2, r.1)
  else if db_type = "postgresql" then
    .ok (create_postgresql_engine s.debug s.postgres_host s.postgres_port
      s.postgres_db s.postgres_user s.postgres_password, fs)
  else if db_type = "mysql" then
    .ok (create_mysql_engine s.debug s.mysql_host s.mysql_port
      s.mysql_db s.mysql_user s.mysql_password, fs)
  else if db_type = "mongodb" then
    .ok (create_mongodb_client s.mongodb_host s.mongodb_port s.mongodb_db
      (if s.mongodb_user != "" then some s.mongodb_user else none)
      (if s.mongodb_password != "" then some s.mongodb_password else none), fs)
  else
    .error ("Unsupported database type: " ++ db_type)

/-- What `get_database` yields: a fresh SQLAlchemy session (numbered) or the
shared MongoDB database handle. -/
inductive DBHandle where
  | session (sid : Nat)
  | mongoDB (db_name : String)
deriving Repr, DecidableEq

/-- How the request using the yielded handle ends. -/
inductive RequestOutcome where
  | normal
  | raised
deriving Repr, DecidableEq

/-- Observable effect of one `get_database` acquisition: the yielded handle,
the sessions closed when the request scope exits, and the session counter
afterwards. -/
structure AcquisitionResult where
  yielded : DBHandle
  closed : List Nat
  nextSessionId : Nat
deriving Repr, DecidableEq

/-- `get_database`: for a SQLAlchemy engine, `db = SessionLocal()` then
`try: yield db finally: db.close()` — the `finally` clause runs on both the
normal and the exceptional path; for MongoDB, `yield db_engine` directly. -/
def get_database (engine : EngineHandle) (sid : Nat) (outcome : RequestOutcome) :
    AcquisitionResult :=
  match engine with
  | .sqlalchemyEngine _ _ _ _ _ _ =>
    match outcome with
    | .normal => { yielded := .session sid, closed := [sid], nextSessionId := sid + 1 }
    | .raised => { yielded := .session sid, closed := [sid], nextSessionId := sid + 1 }
  | .mongoDatabase _ db_name =>
    { yielded := .mongoDB db_name, closed := [], nextSessionId := sid }

/-- A row of the SQL `users` table (`backend/database/models.py`). The column
defaults applied on insert are: `is_active` default `True`, `is_superuser`
default `False`, `created_at` `server_default=func.now()`; `updated_at` has
only `onupdate=func.now()` and no insert-time default. Timestamps are
modelled as `Option Nat`, `none` meaning SQL NULL. -/
structure UserRow where
  id : Nat
  email : String
  username : String
  hashed_password : String
  full_name : Option String
  is_active : Bool
  is_superuser : Bool
  created_at : Option Nat
  updated_at : Option Nat
deriving Repr, DecidableEq

/-- State of the SQL `users` table: its rows plus the auto-increment counter
(`1` for a fresh table). -/
structure SQLState where
  rows : List UserRow
  nextId : Nat
deriving Repr, DecidableEq

/-- A document of the MongoDB `users` collection. Every field other than the
store-assigned `_id` may be absent, hence `Option`; the read paths recover
absent `is_active` with `.get("is_active", True)`. -/
structure UserDoc where
  oid : String
  email : String
  username : String
  hashed_password : String
  full_name : Option String
  is_active : Option Bool
  is_superuser : Option Bool
  created_at : Option Nat
  updated_at : Option Nat
deriving Repr, DecidableEq

/-- The handle a route receives from `Depends(get_database)`: a SQLAlchemy
session over the SQL state, the MongoDB database over the document state, or
something of neither recognized family. -/
inductive DB where
  | sql (st : SQLState)
  | mongo (docs : List UserDoc)
  | other
deriving Repr, DecidableEq

/-- Request body of `POST /auth/register`. -/
structure UserCreate where
  email : String
  username : String
  password : String
  full_name : Option String
deriving Repr, DecidableEq

/-- Identifier in a response: the relational auto-increment integer or the
document store's opaque id rendered as a string. -/
inductive UserId where
  | intId (n : Nat)
  | strId (s : String)
deriving Repr, DecidableEq

/-- The `UserResponse` Pydantic model (the fields the handlers populate). -/
structure UserResponse where
  id : UserId
  email : String
  username : String
  full_name : Option String
  is_active : Bool
deriving Repr, DecidableEq

/-- Outcome of the `register` handler: a 201 response together with the new
database state, an `HTTPException` (state unchanged), or Python's implicit
`None` return when no branch matches. -/
inductive RegisterResult where
  | created (resp : UserResponse) (db : DB)
  | httpError (code : Nat) (detail : String) (db : DB)
  | pyNone (db : DB)
deriving Repr, DecidableEq

/-- The SQL registration pre-check:
`db.query(User).filter((User.email == e) | (User.username == u)).first()`. -/
def find_by_either_sql (rows : List UserRow) (email username : String) :
    Option UserRow :=
  rows.find? (fun u => u.email == email || u.username == username)

/-- The MongoDB registration pre-check:
`db.users.find_one({"$or": [{"email": e}, {"username": u}]})`. -/
def find_by_either_mongo (docs : List UserDoc) (email username : String) :
    Option UserDoc :=
  docs.find? (fun u => u.email == email || u.username == username)

/-- The `register` route handler. `hash` stands for
`auth_service.get_password_hash`, `now` for `datetime.utcnow()`, `freshOid`
for the ObjectId MongoDB assigns on `insert_one`. The SQL insert applies the
column defaults of `UserRow`; the MongoDB insert builds `user_doc`
explicitly. -/
def register (hash : String → String) (now : Nat) (freshOid : String)
    (user_data : UserCreate) (db : DB) : RegisterResult :=
  match db with
  | .sql st =>
    match find_by_either_sql st.rows user_data.email user_data.username with
    | some _ => .httpError 400 "Email or username already registered" db
    | none =>
      let hashed_password := hash user_data.password
      let new_user : UserRow :=
        { id := st.nextId
          email := user_data.email
          username := user_data.username
          hashed_password := hashed_password
          full_name := user_data.full_name
          is_active := true
          is_superuser := false
          created_at := some now
          updated_at := none }
      let st' : SQLState := { rows := st.rows ++ [new_user], nextId := st.nextId + 1 }
      .created
        { id := .intId new_user.id
          email := new_user.email
          username := new_user.username
          full_name := new_user.full_name
          is_active := new_user.is_active }
        (.sql st')
  | .mongo docs =>
    match find_by_either_mongo docs user_data.email user_data.username with
    | some _ => .httpError 400 "Email or username already registered" db
    | none =>
      let hashed_password := hash user_data.password
      let user_doc : UserDoc :=
        { oid := freshOid
          email := user_data.email
          username := user_data.username
          hashed_password := hashed_password
          full_name := user_data.full_name
          is_active := some true
          is_superuser := some false
          created_at := some now
          updated_at := some now }
      .created
        { id := .strId freshOid
          email := user_doc.email
          username := user_doc.username
          full_name := user_doc.full_name
          is_active := true }
        (.mongo (docs ++ [user_doc]))
  | .other => .pyNone db

/-- Outcome of the `login` route handler. -/
inductive LoginResult where
  | token (access_token : String) (token_type : String)
  | httpError (code : Nat) (detail : String)
deriving Repr, DecidableEq

/-- The `login` route handler. `verify` stands for
`auth_service.verify_password` and `make_token` for
`auth_service.create_access_token`. On MongoDB the active check is
`user.get("is_active", True)`. -/
def login (verify : String → String → Bool) (make_token : String → String)
    (username password : String) (db : DB) : LoginResult :=
  match db with
  | .sql st =>
    match st.rows.find? (fun u => u.username == username) with
    | none => .httpError 401 "Incorrect username or password"
    | some user =>
      if !verify password user.hashed_password then
        .httpError 401 "Incorrect username or password"
      else if !user.is_active then
        .httpError 403 "User account is inactive"
      else
        .token (make_token username) "bearer"
  | .mongo docs =>
    match docs.find? (fun u => u.username == username) with
    | none => .httpError 401 "Incorrect username or password"
    | some user =>
      if !verify password user.hashed_password then
        .httpError 401 "Incorrect username or password"
      else if !(user.is_active.getD true) then
        .httpError 403 "User account is inactive"
      else
        .token (make_token username) "bearer"
  | .other => .httpError 500 "Database configuration error"

/-- The `get_users` route handler (after authentication): SQL uses
`offset(skip).limit(limit)`, MongoDB uses `find().skip(skip).limit(limit)`
with `user.get("is_active", True)`; any other handle returns `[]`. -/
def get_users (skip limit : Nat) (db : DB) : List UserResponse :=
  match db with
  | .sql st =>
    ((st.rows.drop skip).take limit).map (fun u =>
      { id := .intId u.id
        email := u.email
        username := u.username
        full_name := u.full_name
        is_active := u.is_active })
  | .mongo docs =>
    ((docs.drop skip).take limit).map (fun u =>
      { id := .strId u.oid
        email := u.email
        username := u.username
        full_name := u.full_name
        is_active := u.is_active.getD true })
  | .other => []

/-- What the database-lookup part of `get_current_user` produces for a
decoded token subject: the user dict, or the 401 credentials exception. -/
inductive CurrentUserResult where
  | userInfo (id : UserId) (username : String) (email : String) (is_active : Bool)
  | credentialsError
deriving Repr, DecidableEq

/-- The database lookup of `get_current_user` for a decoded `username`:
SQL looks up by username; MongoDB uses `find_one` and recovers an absent
`is_active` as `True`; any other handle raises the credentials exception. -/
def get_current_user_db_lookup (username : String) (db : DB) : CurrentUserResult :=
  match db with
  | .sql st =>
    match st.rows.find? (fun u => u.username == username) with
    | none => .credentialsError
    | some user => .userInfo (.intId user.id) user.username user.email user.is_active
  | .mongo docs =>
    match docs.find? (fun u => u.username == username) with
    | none => .credentialsError
    | some user =>
      .userInfo (.strId user.oid) user.username user.email (user.is_active.getD true)
  | .other => .credentialsError

/-- The round trip `health_check` performs against the backend. -/
inductive ProbeKind where
  | ping
  | select1
deriving Repr, DecidableEq

/-- Which probe `health_check` sends: `db_engine.command("ping")` for a
MongoDB handle, `SELECT 1` on a pooled connection otherwise. -/
def db_probe_kind : EngineHandle → ProbeKind
  | .mongoDatabase _ _ => .ping
  | .sqlalchemyEngine _ _ _ _ _ _ => .select1

/-- The `try/except` around the probe in `health_check`: any exception is
caught and rendered as `"error: <detail>"`. -/
def health_db_status (engine : EngineHandle)
    (probe : ProbeKind → Except String Unit) : String :=
  match probe (db_probe_kind engine) with
  | .ok _ => "connected"
  | .error e => "error: " ++ e

/-- The fields of `HealthResponse` the claims are about. -/
structure HealthResponse where
  status : String
  environment : String
  database : String
deriving Repr, DecidableEq

/-- The `health_check` route handler. -/
def health_check (engine : EngineHandle)
    (probe : ProbeKind → Except String Unit) (environment : String) :
    HealthResponse :=
  { status := "healthy"
    environment := environment
    database := health_db_status engine probe }

/-- Settings with the given configured database type and the repository's
documented defaults for every connection parameter. -/
def testSettings (t : String) : Settings :=
  { database_type := t
    debug := true
    sqlite_db_path := "./data/app.db"
    postgres_host := "localhost"
    postgres_port := 5432
    postgres_db := "pyreact_fusion"
    postgres_user := "postgres"
    postgres_password := "postgres"
    mysql_host := "localhost"
    mysql_port := 3306
    mysql_db := "pyreact_fusion"
    mysql_user := "root"
    mysql_password := "root"
    mongodb_host := "localhost"
    mongodb_port := 27017
    mongodb_db := "pyreact_fusion"
    mongodb_user := ""
    mongodb_password := "" }

/-- Claim C1: for each of the four recognized backend kinds (compared after
lowercasing), `DatabaseFactory.create_engine` returns exactly one handle of
the matching family — a SQLAlchemy engine for sqlite, postgresql and mysql,
a document-database handle for mongodb — and for any other configured type
it raises `ValueError` and constructs no handle. -/
theorem C1_create_engine_dispatch (s : Settings) (fs : List String) :
    (pyLower s.database_type = "sqlite" →
      ∃ e fs', DatabaseFactory.create_engine s fs = .ok (e, fs') ∧
        e.family = .relational)
    ∧ (pyLower s.database_type = "postgresql" →
      ∃ e, DatabaseFactory.create_engine s fs = .ok (e, fs) ∧
        e.family = .relational)
    ∧ (pyLower s.database_type = "mysql" →
      ∃ e, DatabaseFactory.create_engine s fs = .ok (e, fs) ∧
        e.family = .relational)
    ∧ (pyLower s.database_type = "mongodb" →
      ∃ e, DatabaseFactory.create_engine s fs = .ok (e, fs) ∧
        e.family = .document)
    ∧ (pyLower s.database_type ≠ "sqlite" → pyLower s.database_type ≠ "postgresql" →
        pyLower s.database_type ≠ "mysql" → pyLower s.database_type ≠ "mongodb" →
      DatabaseFactory.create_engine s fs =
        .error ("Unsupported database type: " ++ pyLower s.database_type)) := by
  refine ⟨?_, ?_, ?_, ?_, ?_⟩
  · intro h
    simp only [DatabaseFactory.create_engine]
    rw [if_pos h]
    exact ⟨_, _, rfl, rfl⟩
  · intro h
    simp only [DatabaseFactory.create_engine]
    rw [if_neg (by simp [h]), if_pos h]
    exact ⟨_, rfl, rfl⟩
  · intro h
    simp only [DatabaseFactory.create_engine]
    rw [if_neg (by simp [h]), if_neg (by simp [h]), if_pos h]
    exact ⟨_, rfl, rfl⟩
  · intro h
    simp only [DatabaseFactory.create_engine]
    rw [if_neg (by simp [h]), if_neg (by simp [h]), if_neg (by simp [h]), if_pos h]
    exact ⟨_, rfl, rfl⟩
  · intro h1 h2 h3 h4
    simp only [DatabaseFactory.create_engine]
    rw [if_neg h1, if_neg h2, if_neg h3, if_neg h4]

/-- Concrete instances of the C1 dispatch, lowercasing included, and the
`ValueError` branch on an unrecognized type. -/
theorem C1_create_engine_dispatch_witness :
    (∃ e fs', DatabaseFactory.create_engine (testSettings "SQLite") [] = .ok (e, fs') ∧
      e.family = .relational)
    ∧ (∃ e, DatabaseFactory.create_engine (testSettings "MongoDB") [] = .ok (e, []) ∧
      e.family = .document)
    ∧ DatabaseFactory.create_engine (testSettings "oracle") [] =
        .error ("Unsupported database type: " ++
          pyLower (testSettings "oracle").database_type) :=
  ⟨(C1_create_engine_dispatch (testSettings "SQLite") []).1 (by decide),
   (C1_create_engine_dispatch (testSettings "MongoDB") []).2.2.2.1 (by decide),
   (C1_create_engine_dispatch (testSettings "oracle") []).2.2.2.2
     (by decide) (by decide) (by decide) (by decide)⟩

/-- Claim C2: over a relational engine, every `get_database` acquisition
opens a fresh session (the counter advances, so consecutive acquisitions
never yield the same session) and closes that session on both the normal
and the exceptional exit path; over the document handle it yields the same
shared database handle on every acquisition and closes nothing. -/
theorem C2_get_database_scope :
    (∀ url cst psz mov ppp ec sid outcome,
      get_database (.sqlalchemyEngine url cst psz mov ppp ec) sid outcome =
        { yielded := .session sid, closed := [sid], nextSessionId := sid + 1 })
    ∧ (∀ url cst psz mov ppp ec sid outcome outcome',
      (get_database (.sqlalchemyEngine url cst psz mov ppp ec) sid outcome).yielded ≠
        (get_database (.sqlalchemyEngine url cst psz mov ppp ec)
          ((get_database (.sqlalchemyEngine url cst psz mov ppp ec) sid
            outcome).nextSessionId) outcome').yielded)
    ∧ (∀ cs dbn sid outcome,
      get_database (.mongoDatabase cs dbn) sid outcome =
        { yielded := .mongoDB dbn, closed := [], nextSessionId := sid }) := by
  refine ⟨?_, ?_, ?_⟩
  · intro url cst psz mov ppp ec sid outcome
    cases outcome <;> rfl
  · intro url cst psz mov ppp ec sid o o'
    cases o <;> cases o' <;> simp [get_database]
  · intro cs dbn sid outcome
    rfl

/-- Claim C5: the health check sends the ping probe to a document handle and
`SELECT 1` to a relational one, reports `"connected"` exactly when the probe
succeeds and `"error: <detail>"` when it raises, and always produces a
status string (no probe exception escapes). -/
theorem C5_health_check_probe (engine : EngineHandle)
    (probe : ProbeKind → Except String Unit) (environment : String) :
    ((health_check engine probe environment).status = "healthy")
    ∧ (probe (db_probe_kind engine) = .ok () →
        (health_check engine probe environment).database = "connected")
    ∧ (∀ e, probe (db_probe_kind engine) = .error e →
        (health_check engine probe environment).database = "error: " ++ e)
    ∧ ((health_check engine probe environment).database = "connected" ∨
        ∃ e, (health_check engine probe environment).database = "error: " ++ e)
    ∧ (∀ cs dbn, db_probe_kind (.mongoDatabase cs dbn) = .ping)
    ∧ (∀ url cst psz mov ppp ec,
        db_probe_kind (.sqlalchemyEngine url cst psz mov ppp ec) = .select1) := by
  refine ⟨rfl, ?_, ?_, ?_, fun cs dbn => rfl, fun url cst psz mov ppp ec => rfl⟩
  · intro h
    simp [health_check, health_db_status, h]
  · intro e h
    simp [health_check, health_db_status, h]
  · cases h : probe (db_probe_kind engine) with
    | error e => exact Or.inr ⟨e, by simp [health_check, health_db_status, h]⟩
    | ok u => exact Or.inl (by simp [health_check, health_db_status, h])

/-- A probe oracle that always succeeds. -/
def probeOK : ProbeKind → Except String Unit := fun _ => .ok ()

/-- A probe oracle that always raises. -/
def probeFail : ProbeKind → Except String Unit := fun _ => .error "conn refused"

/-- Concrete instances of the C5 health statuses on both probe outcomes. -/
theorem C5_health_check_probe_witness :
    (health_check (.mongoDatabase "mongodb://localhost:27017/d" "d") probeOK
      "development").database = "connected"
    ∧ (health_check (.mongoDatabase "mongodb://localhost:27017/d" "d") probeFail
      "development").database = "error: " ++ "conn refused" :=
  ⟨(C5_health_check_probe _ probeOK _).2.1 rfl,
   (C5_health_check_probe _ probeFail _).2.2.1 "conn refused" rfl⟩

/-- Claim C6: the MongoDB connection string carries the `user:password@`
credential segment exactly when both the user and the password are supplied
and non-empty (Python truthiness); otherwise the unauthenticated form is
used. -/
theorem C6_mongo_connection_credentials (host : String) (port : Nat)
    (database : String) (user password : Option String) :
    (pyTruthyStr user = true → pyTruthyStr password = true →
      create_mongodb_client host port database user password =
        .mongoDatabase
          ("mongodb://" ++ user.getD "" ++ ":" ++ password.getD "" ++ "@" ++
            host ++ ":" ++ toString port ++ "/" ++ database) database)
    ∧ (pyTruthyStr user = false ∨ pyTruthyStr password = false →
      create_mongodb_client host port database user password =
        .mongoDatabase
          ("mongodb://" ++ host ++ ":" ++ toString port ++ "/" ++ database)
          database) := by
  constructor
  · intro hu hp
    simp [create_mongodb_client, hu, hp]
  · intro h
    rcases h with h | h <;> simp [create_mongodb_client, h]

/-- Concrete instances of the C6 connection-string forms. -/
theorem C6_mongo_connection_credentials_witness :
    create_mongodb_client "localhost" 27017 "pyreact_fusion" (some "u") (some "pw") =
      .mongoDatabase
        ("mongodb://" ++ (some "u").getD "" ++ ":" ++ (some "pw").getD "" ++ "@" ++
          "localhost" ++ ":" ++ toString 27017 ++ "/" ++ "pyreact_fusion")
        "pyreact_fusion"
    ∧ create_mongodb_client "localhost" 27017 "pyreact_fusion" none none =
      .mongoDatabase
        ("mongodb://" ++ "localhost" ++ ":" ++ toString 27017 ++ "/" ++ "pyreact_fusion")
        "pyreact_fusion" :=
  ⟨(C6_mongo_connection_credentials "localhost" 27017 "pyreact_fusion"
      (some "u") (some "pw")).1 rfl rfl,
   (C6_mongo_connection_credentials "localhost" 27017 "pyreact_fusion"
      none none).2 (Or.inl rfl)⟩

/-- Claim C7: constructing the sqlite engine always succeeds, creates the
parent directory of the database file (`"."` when the path has no parent) as
a side effect, and opens the handle with `check_same_thread=False` so it can
be shared across request threads. -/
theorem C7_sqlite_parent_dir_and_thread_mode (debug : Bool) (fs : List String)
    (db_path : String) :
    (if dirname db_path = "" then "." else dirname db_path) ∈
      (create_sqlite_engine debug fs db_path).1
    ∧ (create_sqlite_engine debug fs db_path).2 =
        .sqlalchemyEngine ("sqlite:///" ++ db_path) (some false) none none
          false debug := by
  constructor
  · by_cases hX : (if dirname db_path = "" then "." else dirname db_path) ∈ fs
    · simp [create_sqlite_engine, makedirs, hX]
    · simp [create_sqlite_engine, makedirs, hX]
  · rfl

/-- Claim C10: on a handle of neither recognized family, `register` falls
through every branch and returns Python's implicit `None`, `login` raises an
explicit 500 error, and `get_users` returns the empty list. -/
theorem C10_unrecognized_handle_disagreement (hash : String → String) (now : Nat)
    (oid : String) (ud : UserCreate) (verify : String → String → Bool)
    (make_token : String → String) (username password : String)
    (skip limit : Nat) :
    register hash now oid ud .other = .pyNone .other
    ∧ login verify make_token username password .other =
        .httpError 500 "Database configuration error"
    ∧ get_users skip limit .other = [] :=
  ⟨rfl, rfl, rfl⟩

/-- A stand-in for `auth_service.get_password_hash`. -/
def hash0 : String → String := fun p => "bcrypt-" ++ p

/-- A stand-in for `auth_service.verify_password`, matching `hash0`. -/
def verify0 : String → String → Bool := fun plain hashed => hashed == hash0 plain

/-- A stand-in for `auth_service.create_access_token`. -/
def make_token0 : String → String := fun u => "jwt-" ++ u

/-- The registration payload of the spec's concrete scenario. -/
def udA : UserCreate :=
  { email := "a@x.com", username := "a", password := "p", full_name := none }

/-- A second payload reusing the username of `udA` with a different email. -/
def udB : UserCreate :=
  { email := "b@x.com", username := "a", password := "p", full_name := none }

/-- The row produced by registering `udA` against an empty SQL store. -/
def rowA : UserRow :=
  { id := 1
    email := "a@x.com"
    username := "a"
    hashed_password := hash0 "p"
    full_name := none
    is_active := true
    is_superuser := false
    created_at := some 7
    updated_at := none }

/-- SQL state holding exactly `rowA`. -/
def stA : SQLState := { rows := [rowA], nextId := 2 }

/-- A MongoDB user document whose `is_active` field is absent. -/
def docN : UserDoc :=
  { oid := "64b0c0ffee"
    email := "n@x.com"
    username := "n"
    hashed_password := hash0 "p"
    full_name := none
    is_active := none
    is_superuser := none
    created_at := none
    updated_at := none }

/-- Claim C3: in both backend branches, registration first runs the
find-by-either pre-check (an OR over exact equality on email and username);
a hit is rejected with a 400 conflict before any insert, leaving the stored
records unchanged, and only an empty pre-check leads to the insert. -/
theorem C3_register_uniqueness_precheck (hash : String → String) (now : Nat)
    (oid : String) (ud : UserCreate) :
    (∀ st u, find_by_either_sql st.rows ud.email ud.username = some u →
      register hash now oid ud (.sql st) =
        .httpError 400 "Email or username already registered" (.sql st))
    ∧ (∀ st, find_by_either_sql st.rows ud.email ud.username = none →
      ∃ resp new_user, register hash now oid ud (.sql st) =
        .created resp (.sql { rows := st.rows ++ [new_user], nextId := st.nextId + 1 }))
    ∧ (∀ docs u, find_by_either_mongo docs ud.email ud.username = some u →
      register hash now oid ud (.mongo docs) =
        .httpError 400 "Email or username already registered" (.mongo docs))
    ∧ (∀ docs, find_by_either_mongo docs ud.email ud.username = none →
      ∃ resp user_doc, register hash now oid ud (.mongo docs) =
        .created resp (.mongo (docs ++ [user_doc]))) := by
  refine ⟨?_, ?_, ?_, ?_⟩
  · intro st u h
    simp [register, h]
  · intro st h
    refine ⟨{ id := .intId st.nextId, email := ud.email, username := ud.username,
              full_name := ud.full_name, is_active := true },
            { id := st.nextId, email := ud.email, username := ud.username,
              hashed_password := hash ud.password, full_name := ud.full_name,
              is_active := true, is_superuser := false,
              created_at := some now, updated_at := none }, ?_⟩
    simp [register, h]
  · intro docs u h
    simp [register, h]
  · intro docs h
    refine ⟨{ id := .strId oid, email := ud.email, username := ud.username,
              full_name := ud.full_name, is_active := true },
            { oid := oid, email := ud.email, username := ud.username,
              hashed_password := hash ud.password, full_name := ud.full_name,
              is_active := some true, is_superuser := some false,
              created_at := some now, updated_at := some now }, ?_⟩
    simp [register, h]

/-- Concrete instances of the C3 pre-check: a fresh pair inserts, a reused
username is rejected with the state unchanged. -/
theorem C3_register_uniqueness_precheck_witness :
    register hash0 7 "" udB (.sql stA) =
      .httpError 400 "Email or username already registered" (.sql stA)
    ∧ ∃ resp new_user, register hash0 7 "" udA (.sql { rows := [], nextId := 1 }) =
        .created resp (.sql { rows := [] ++ [new_user], nextId := 1 + 1 }) :=
  ⟨(C3_register_uniqueness_precheck hash0 7 "" udB).1 stA rowA (by decide),
   (C3_register_uniqueness_precheck hash0 7 "" udA).2.1
     { rows := [], nextId := 1 } rfl⟩

/-- Claim C4 as stated is false: on the relational branch the freshly
inserted record has `updated_at` NULL, because the `updated_at` column has
only an `onupdate` hook and no insert-time default. Registering the spec's
scenario user against an empty SQL store yields a row with
`updated_at = none`. -/
theorem C4_counterexample_sql_updated_at_null :
    register hash0 7 "" udA (.sql { rows := [], nextId := 1 }) =
      .created
        { id := .intId 1, email := "a@x.com", username := "a",
          full_name := none, is_active := true }
        (.sql { rows := [{ id := 1, email := "a@x.com", username := "a",
                           hashed_password := hash0 "p", full_name := none,
                           is_active := true, is_superuser := false,
                           created_at := some 7, updated_at := none }],
                nextId := 2 }) := rfl

/-- Claim C4 (amended): on insert, the relational branch stamps `created_at`
via the engine's default-value mechanism but leaves `updated_at` null (the
column only has an on-update hook); the document branch stamps both
`created_at` and `updated_at` explicitly before insert, so both are present
and non-null on a freshly inserted document. -/
theorem C4_insert_timestamps (hash : String → String) (now : Nat) (oid : String)
    (ud : UserCreate) :
    (∀ st, find_by_either_sql st.rows ud.email ud.username = none →
      ∃ resp new_user, register hash now oid ud (.sql st) =
        .created resp (.sql { rows := st.rows ++ [new_user], nextId := st.nextId + 1 }) ∧
        new_user.created_at = some now ∧ new_user.updated_at = none)
    ∧ (∀ docs, find_by_either_mongo docs ud.email ud.username = none →
      ∃ resp user_doc, register hash now oid ud (.mongo docs) =
        .created resp (.mongo (docs ++ [user_doc])) ∧
        user_doc.created_at = some now ∧ user_doc.updated_at = some now) := by
  constructor
  · intro st h
    refine ⟨{ id := .intId st.nextId, email := ud.email, username := ud.username,
              full_name := ud.full_name, is_active := true },
            { id := st.nextId, email := ud.email, username := ud.username,
              hashed_password := hash ud.password, full_name := ud.full_name,
              is_active := true, is_superuser := false,
              created_at := some now, updated_at := none }, ?_, rfl, rfl⟩
    simp [register, h]
  · intro docs h
    refine ⟨{ id := .strId oid, email := ud.email, username := ud.username,
              full_name := ud.full_name, is_active := true },
            { oid := oid, email := ud.email, username := ud.username,
              hashed_password := hash ud.password, full_name := ud.full_name,
              is_active := some true, is_superuser := some false,
              created_at := some now, updated_at := some now }, ?_, rfl, rfl⟩
    simp [register, h]

/-- Concrete instances of the amended C4 timestamp behavior in both
branches. -/
theorem C4_insert_timestamps_witness :
    (∃ resp new_user, register hash0 7 "" udA (.sql { rows := [], nextId := 1 }) =
        .created resp (.sql { rows := [] ++ [new_user], nextId := 1 + 1 }) ∧
        new_user.created_at = some 7 ∧ new_user.updated_at = none)
    ∧ (∃ resp user_doc, register hash0 7 "65f0aaaa" udA (.mongo []) =
        .created resp (.mongo ([] ++ [user_doc])) ∧
        user_doc.created_at = some 7 ∧ user_doc.updated_at = some 7) :=
  ⟨(C4_insert_timestamps hash0 7 "" udA).1 { rows := [], nextId := 1 } rfl,
   (C4_insert_timestamps hash0 7 "65f0aaaa" udA).2 [] rfl⟩

/-- Claim C8: a successful insert returns the newly assigned identifier —
on the relational branch the auto-increment integer (positive, and equal to
the id of the row read back after the insert), on the document branch the
store-assigned opaque id rendered as a string. -/
theorem C8_insert_identifier (hash : String → String) (now : Nat) (oid : String)
    (ud : UserCreate) :
    (∀ st, find_by_either_sql st.rows ud.email ud.username = none → 1 ≤ st.nextId →
      ∃ resp new_user, register hash now oid ud (.sql st) =
        .created resp (.sql { rows := st.rows ++ [new_user], nextId := st.nextId + 1 }) ∧
        new_user.id = st.nextId ∧ resp.id = .intId new_user.id ∧ 1 ≤ new_user.id)
    ∧ (∀ docs, find_by_either_mongo docs ud.email ud.username = none →
      ∃ resp user_doc, register hash now oid ud (.mongo docs) =
        .created resp (.mongo (docs ++ [user_doc])) ∧
        user_doc.oid = oid ∧ resp.id = .strId user_doc.oid) := by
  constructor
  · intro st h hpos
    refine ⟨{ id := .intId st.nextId, email := ud.email, username := ud.username,
              full_name := ud.full_name, is_active := true },
            { id := st.nextId, email := ud.email, username := ud.username,
              hashed_password := hash ud.password, full_name := ud.full_name,
              is_active := true, is_superuser := false,
              created_at := some now, updated_at := none }, ?_, rfl, rfl, hpos⟩
    simp [register, h]
  · intro docs h
    refine ⟨{ id := .strId oid, email := ud.email, username := ud.username,
              full_name := ud.full_name, is_active := true },
            { oid := oid, email := ud.email, username := ud.username,
              hashed_password := hash ud.password, full_name := ud.full_name,
              is_active := some true, is_superuser := some false,
              created_at := some now, updated_at := some now }, ?_, rfl, rfl⟩
    simp [register, h]

/-- Concrete instances of the C8 identifier behavior: the spec scenario
user gets id 1 on a fresh relational store, and the opaque string id on the
document store. -/
theorem C8_insert_identifier_witness :
    (∃ resp new_user, register hash0 7 "" udA (.sql { rows := [], nextId := 1 }) =
        .created resp (.sql { rows := [] ++ [new_user], nextId := 1 + 1 }) ∧
        new_user.id = 1 ∧ resp.id = .intId new_user.id ∧ 1 ≤ new_user.id)
    ∧ (∃ resp user_doc, register hash0 7 "65f0c0ffee" udA (.mongo []) =
        .created resp (.mongo ([] ++ [user_doc])) ∧
        user_doc.oid = "65f0c0ffee" ∧ resp.id = .strId user_doc.oid) :=
  ⟨(C8_insert_identifier hash0 7 "" udA).1 { rows := [], nextId := 1 } rfl
     (by decide),
   (C8_insert_identifier hash0 7 "65f0c0ffee" udA).2 [] rfl⟩

/-- Claim C9: every record created through registration has
`is_active = True` and `is_superuser = False` in both branches, and every
document-backend read path (`get_current_user`, `login`, `get_users`)
treats a document with no `is_active` field as active. -/
theorem C9_active_superuser_invariants (hash : String → String) (now : Nat)
    (oid : String) (ud : UserCreate) :
    (∀ st, find_by_either_sql st.rows ud.email ud.username = none →
      ∃ resp new_user, register hash now oid ud (.sql st) =
        .created resp (.sql { rows := st.rows ++ [new_user], nextId := st.nextId + 1 }) ∧
        new_user.is_active = true ∧ new_user.is_superuser = false ∧
        resp.is_active = true)
    ∧ (∀ docs, find_by_either_mongo docs ud.email ud.username = none →
      ∃ resp user_doc, register hash now oid ud (.mongo docs) =
        .created resp (.mongo (docs ++ [user_doc])) ∧
        user_doc.is_active = some true ∧ user_doc.is_superuser = some false ∧
        resp.is_active = true)
    ∧ (∀ docs username user,
        docs.find? (fun u => u.username == username) = some user →
        user.is_active = none →
        get_current_user_db_lookup username (.mongo docs) =
          .userInfo (.strId user.oid) user.username user.email true)
    ∧ (∀ (verify : String → String → Bool) (make_token : String → String)
        (username password : String) docs user,
        docs.find? (fun u => u.username == username) = some user →
        user.is_active = none → verify password user.hashed_password = true →
        login verify make_token username password (.mongo docs) =
          .token (make_token username) "bearer")
    ∧ (∀ skip limit docs r, r ∈ get_users skip limit (.mongo docs) →
        ∃ u, u ∈ (docs.drop skip).take limit ∧
          (u.is_active = none → r.is_active = true)) := by
  refine ⟨?_, ?_, ?_, ?_, ?_⟩
  · intro st h
    refine ⟨{ id := .intId st.nextId, email := ud.email, username := ud.username,
              full_name := ud.full_name, is_active := true },
            { id := st.nextId, email := ud.email, username := ud.username,
              hashed_password := hash ud.password, full_name := ud.full_name,
              is_active := true, is_superuser := false,
              created_at := some now, updated_at := none }, ?_, rfl, rfl, rfl⟩
    simp [register, h]
  · intro docs h
    refine ⟨{ id := .strId oid, email := ud.email, username := ud.username,
              full_name := ud.full_name, is_active := true },
            { oid := oid, email := ud.email, username := ud.username,
              hashed_password := hash ud.password, full_name := ud.full_name,
              is_active := some true, is_superuser := some false,
              created_at := some now, updated_at := some now }, ?_, rfl, rfl, rfl⟩
    simp [register, h]
  · intro docs username user hf hna
    simp [get_current_user_db_lookup, hf, hna]
  · intro verify make_token username password docs user hf hna hv
    simp [login, hf, hv, hna]
  · intro skip limit docs r hr
    obtain ⟨u, hu, hfu⟩ := List.mem_map.mp hr
    refine ⟨u, hu, fun hna => ?_⟩
    rw [← hfu]
    simp [hna]

/-- Concrete instances of the C9 invariants: registration defaults on the
relational branch, and the absent-`is_active` default on all three document
read paths. -/
theorem C9_active_superuser_invariants_witness :
    (∃ resp new_user, register hash0 7 "" udA (.sql { rows := [], nextId := 1 }) =
        .created resp (.sql { rows := [] ++ [new_user], nextId := 1 + 1 }) ∧
        new_user.is_active = true ∧ new_user.is_superuser = false ∧
        resp.is_active = true)
    ∧ get_current_user_db_lookup "n" (.mongo [docN]) =
        .userInfo (.strId docN.oid) docN.username docN.email true
    ∧ login verify0 make_token0 "n" "p" (.mongo [docN]) =
        .token (make_token0 "n") "bearer" :=
  ⟨(C9_active_superuser_invariants hash0 7 "" udA).1
     { rows := [], nextId := 1 } rfl,
   (C9_active_superuser_invariants hash0 7 "" udA).2.2.1
     [docN] "n" docN (by decide) rfl,
   (C9_active_superuser_invariants hash0 7 "" udA).2.2.2.1
     verify0 make_token0 "n" "p" [docN] docN (by decide) rfl (by decide)⟩

end PyReact
